import Mathlib

/-!
Shallow embedding of `src/plugins/deye_plugin_ha_discovery.py` (class
`DeyeHADiscovery`), the Home-Assistant discovery plugin for
deye-inverter-mqtt, together with proofs about the claims of the
specification.

Modelling conventions:
* Python strings are Lean `String`s; the string primitives
  (`str.endswith`, `str.startswith`, `in`, `str.lower`,
  `str.replace` with one-character arguments, `str.strip`) are
  re-implemented over `List Char` (`String.data`) so that they are
  both executable and easy to reason about.
* `str.lower` is modelled by `Char.toLower` (ASCII case folding); the
  regex class `\d` of `re` is modelled by `Char.isDigit` (ASCII
  digits).  All topic suffixes, serial numbers and patterns handled by
  the plugin are ASCII, where the two notions agree.
* The Python `assert` in `_get_unique_id` is modelled by returning
  `none` (`Option String`); a successful call returns `some`.
* `functools.cache` memoisation is semantically transparent for the
  pure functions it wraps and is not modelled.
* `mqtt_client.publish` is modelled by returning the channel name and
  the payload record instead of performing I/O; the JSON dictionaries
  are modelled as Lean structures holding the fields relevant to the
  spec (the static `device` sub-dictionary is not needed by any claim
  and is omitted).
-/

/-- Boolean test that the first list is a prefix of the second
(character-wise equality). -/
def isPrefixOfL : List Char → List Char → Bool
  | [], _ => true
  | _ :: _, [] => false
  | a :: as, b :: bs => a == b && isPrefixOfL as bs

/-- Python `s.endswith(suf)`: `suf` is a suffix of `s`. -/
def pyEndsWith (s suf : String) : Bool :=
  isPrefixOfL suf.data.reverse s.data.reverse

/-- Python `s.startswith(p)`: `p` is a prefix of `s`. -/
def pyStartsWith (s p : String) : Bool :=
  isPrefixOfL p.data s.data

/-- Helper for the Python `in` operator on strings: `sub` occurs
contiguously in the second list. -/
def containsL (sub : List Char) : List Char → Bool
  | [] => isPrefixOfL sub []
  | c :: t => isPrefixOfL sub (c :: t) || containsL sub t

/-- Python `sub in s` for strings. -/
def pyContains (s sub : String) : Bool :=
  containsL sub.data s.data

/-- Python `s.lower()` (ASCII case folding, see module conventions). -/
def pyLower (s : String) : String :=
  ⟨s.data.map Char.toLower⟩

/-- Python `s.replace(a, b)` for one-character `a`, `b`: a
character-wise map. -/
def pyReplace (s : String) (a b : Char) : String :=
  ⟨s.data.map (fun c => if c == a then b else c)⟩

/-- Whitespace characters stripped by Python `str.strip()` (the ASCII
ones; the plugin never sees non-ASCII whitespace). -/
def isPySpace (c : Char) : Bool :=
  c == ' ' || c == '\t' || c == '\n' || c == '\r' || c == '\x0b' || c == '\x0c'

/-- Python `s.strip()`: remove leading and trailing whitespace. -/
def pyStrip (s : String) : String :=
  ⟨((s.data.dropWhile isPySpace).reverse.dropWhile isPySpace).reverse⟩

/-- Semantics of `re.match(r"ac/l\d+/ct/(internal|external)", topic)`
from `_get_device_class`: `re.match` anchors at the START of the
string only, so this is an anchored-prefix match.  The pattern is
fixed, so the regex engine is specialised to it: literal `ac/l`, a
maximal non-empty run of digits (`\d+` is greedy, and no digit can
start `/ct/...`, so no backtracking arises), then `/ct/internal` or
`/ct/external`, then anything. -/
def ctMatchL (l : List Char) : Bool :=
  isPrefixOfL "ac/l".data l &&
    (let rest := l.drop 4
     let ds := rest.takeWhile Char.isDigit
     !ds.isEmpty &&
       (isPrefixOfL "/ct/internal".data (rest.drop ds.length) ||
        isPrefixOfL "/ct/external".data (rest.drop ds.length)))

/-- Source constant `DeyeHADiscovery.component_prefix`
(`"deye_inverter_mqtt"`). -/
def component_pfx : String := "deye_inverter_mqtt"

/-- Source method `DeyeHADiscovery._get_device_class`: the ordered
if/elif cascade returning `(device_class, platform)` for a topic
suffix. -/
def _get_device_class (topic : String) : String × String :=
  if pyEndsWith topic "/voltage" || pyEndsWith topic "/charging_voltage" ||
      pyEndsWith topic "/discharge_voltage" then
    ("voltage", "sensor")
  else if pyEndsWith topic "/current" || pyEndsWith topic "charge_current_limit" ||
      pyEndsWith topic "/charging_max_current" ||
      pyEndsWith topic "/discharge_max_current" then
    ("current", "sensor")
  else if pyEndsWith topic "_charge" || pyEndsWith topic "_discharge" ||
      pyEndsWith topic "_energy" || pyContains topic "_energy_" then
    ("energy", "sensor")
  else if ctMatchL topic.data then
    ("power", "sensor")
  else if pyEndsWith topic "power" then
    ("power", "sensor")
  else if pyEndsWith topic "/freq" then
    ("frequency", "sensor")
  else if pyEndsWith topic "temperature" || pyEndsWith topic "/temp" ||
      topic == "radiator_temp" then
    ("temperature", "sensor")
  else if pyEndsWith topic "/soc" || pyStartsWith topic "bms/" then
    ("battery", "sensor")
  else if topic == "uptime" then
    ("duration", "sensor")
  else if topic == "inverter/status" then
    ("enum", "sensor")
  else if topic == "ac/ongrid" then
    ("power", "binary_sensor")
  else
    ("", "sensor")

/-- Source method `DeyeHADiscovery._get_state_class`. -/
def _get_state_class (topic : String) : String :=
  if pyEndsWith topic "_charge" || pyEndsWith topic "_discharge" ||
      pyEndsWith topic "_energy" || pyEndsWith topic "_energy_bought" ||
      pyEndsWith topic "_energy_sold" || topic == "uptime" then
    "total_increasing"
  else
    "measurement"


/-- Rule of the spec's ordered classification cascade (section 4.1): a
predicate together with the resulting device class and platform. -/
structure HARule where
  test : String → Bool
  devClass : String
  plat : String

/-- Walk an ordered rule list top-down, returning the result of the
first matching rule, with the spec's rule-12 default of
`("", "sensor")`. -/
def firstMatch : List HARule → String → String × String
  | [], _ => ("", "sensor")
  | r :: rs, t => if r.test t then (r.devClass, r.plat) else firstMatch rs t

/-- Modelled from the spec's words for rule 4 of section 4.1: the
regex `ac/l<digits>/ct/(internal|external)` as an EXACT match on the
full suffix (nothing may follow the alternation). -/
def ctFullMatchL (l : List Char) : Bool :=
  isPrefixOfL "ac/l".data l &&
    (let rest := l.drop 4
     let ds := rest.takeWhile Char.isDigit
     !ds.isEmpty &&
       (rest.drop ds.length == "/ct/internal".data ||
        rest.drop ds.length == "/ct/external".data))

/-- The ordered rule cascade of spec section 4.1, transcribed rule by
rule, with rule 4 read literally as an exact full-suffix match. -/
def specRules : List HARule :=
  [⟨fun t => pyEndsWith t "/voltage" || pyEndsWith t "/charging_voltage" ||
      pyEndsWith t "/discharge_voltage", "voltage", "sensor"⟩,
   ⟨fun t => pyEndsWith t "/current" || pyEndsWith t "charge_current_limit" ||
      pyEndsWith t "/charging_max_current" ||
      pyEndsWith t "/discharge_max_current", "current", "sensor"⟩,
   ⟨fun t => pyEndsWith t "_charge" || pyEndsWith t "_discharge" ||
      pyEndsWith t "_energy" || pyContains t "_energy_", "energy", "sensor"⟩,
   ⟨fun t => ctFullMatchL t.data, "power", "sensor"⟩,
   ⟨fun t => pyEndsWith t "power", "power", "sensor"⟩,
   ⟨fun t => pyEndsWith t "/freq", "frequency", "sensor"⟩,
   ⟨fun t => pyEndsWith t "temperature" || pyEndsWith t "/temp" ||
      t == "radiator_temp", "temperature", "sensor"⟩,
   ⟨fun t => pyEndsWith t "/soc" || pyStartsWith t "bms/", "battery", "sensor"⟩,
   ⟨fun t => t == "uptime", "duration", "sensor"⟩,
   ⟨fun t => t == "inverter/status", "enum", "sensor"⟩,
   ⟨fun t => t == "ac/ongrid", "power", "binary_sensor"⟩]

/-- The cascade of spec section 4.1 amended at rule 4 only: the regex
is matched as an anchored-PREFIX test (`re.match` semantics), exactly
as the source evaluates it. -/
def specRulesAmended : List HARule :=
  [⟨fun t => pyEndsWith t "/voltage" || pyEndsWith t "/charging_voltage" ||
      pyEndsWith t "/discharge_voltage", "voltage", "sensor"⟩,
   ⟨fun t => pyEndsWith t "/current" || pyEndsWith t "charge_current_limit" ||
      pyEndsWith t "/charging_max_current" ||
      pyEndsWith t "/discharge_max_current", "current", "sensor"⟩,
   ⟨fun t => pyEndsWith t "_charge" || pyEndsWith t "_discharge" ||
      pyEndsWith t "_energy" || pyContains t "_energy_", "energy", "sensor"⟩,
   ⟨fun t => ctMatchL t.data, "power", "sensor"⟩,
   ⟨fun t => pyEndsWith t "power", "power", "sensor"⟩,
   ⟨fun t => pyEndsWith t "/freq", "frequency", "sensor"⟩,
   ⟨fun t => pyEndsWith t "temperature" || pyEndsWith t "/temp" ||
      t == "radiator_temp", "temperature", "sensor"⟩,
   ⟨fun t => pyEndsWith t "/soc" || pyStartsWith t "bms/", "battery", "sensor"⟩,
   ⟨fun t => t == "uptime", "duration", "sensor"⟩,
   ⟨fun t => t == "inverter/status", "enum", "sensor"⟩,
   ⟨fun t => t == "ac/ongrid", "power", "binary_sensor"⟩]


/-- Source method `DeyeHADiscovery._fmt_topic`: lower-case, replace
`/` by `_`, then strip surrounding whitespace. -/
def _fmt_topic (topic : String) : String :=
  pyStrip (pyReplace (pyLower topic) '/' '_')

/-- Source method `DeyeHADiscovery._get_unique_id`.  The instance
state `self._use_topic_in_unique_id` and
`self._config.logger.serial_number` are passed explicitly; the Python
`assert sensor_name or topic_name` is modelled by `none`. -/
def _get_unique_id (use_topic_in_unique_id : Bool) (serial_number : String)
    (sensor_name topic_name : String) : Option String :=
  if sensor_name == "" && topic_name == "" then
    none
  else
    let pfx := if use_topic_in_unique_id then component_pfx else "deye_mqtt_inverter"
    let component :=
      if use_topic_in_unique_id && !(topic_name == "") then topic_name else sensor_name
    let u := pyLower (pfx ++ "_" ++ serial_number ++ "_" ++ component)
    some (pyReplace (pyReplace u ' ' '_') '/' '_')

/-- Character-wise normalisation used by the spec's description of the
unique id (section 4.4): lower-case, then turn spaces and slashes into
underscores, in one pass. -/
def idChar (c : Char) : Char :=
  if c.toLower == ' ' || c.toLower == '/' then '_' else c.toLower

/-- Spec-side (section 4.4) description of the unique id result:
lower-case the composed string and replace every space and slash by an
underscore. -/
def normalizeId (s : String) : String :=
  ⟨s.data.map idChar⟩

/-- Effective component of the unique id: the topic suffix when the
topic strategy is enabled and the suffix is non-empty, the sensor name
otherwise. -/
def effComponent (use_topic_in_unique_id : Bool) (sensor_name topic_name : String) :
    String :=
  if use_topic_in_unique_id && !(topic_name == "") then topic_name else sensor_name

/-- Effective literal placed in front of the unique id. -/
def idPfx (use_topic_in_unique_id : Bool) : String :=
  if use_topic_in_unique_id then "deye_inverter_mqtt" else "deye_mqtt_inverter"


/-- Glob matching with the semantics of spec section 4.5, as
implemented by `fnmatch.fnmatch` for the patterns the plugin uses:
`*` matches any run of characters, `?` matches exactly one character,
any other pattern character matches itself, and the whole pattern must
cover the whole string (fnmatch translates the pattern to an anchored
regex).  The `[...]` character classes of fnmatch are not modelled:
the spec (section 4.5) defines only `*` and `?`, and neither the
built-in pattern nor the colon-separated user patterns of the plugin
use classes.  First argument is the pattern, second the string. -/
def globMatchL : List Char → List Char → Bool
  | [], s => s.isEmpty
  | '*' :: ps, s => (s.tails).any fun t => globMatchL ps t
  | '?' :: ps, s =>
    match s with
    | [] => false
    | _ :: ss => globMatchL ps ss
  | c :: ps, s =>
    match s with
    | [] => false
    | c' :: ss => c == c' && globMatchL ps ss

/-- Python `fnmatch.fnmatch(name, pattern)` (POSIX `normcase` is the
identity). -/
def fnmatch (name pat : String) : Bool :=
  globMatchL pat.data name.data

/-- Source method `DeyeHADiscovery._ignore_topic`:
`any(fnmatch.fnmatch(topic, pattern) for pattern in ignore_list)`. -/
def _ignore_topic (topic : String) (ignore_list : List String) : Bool :=
  ignore_list.any fun pat => fnmatch topic pat

/-- Source constant `DeyeHADiscovery._ignore_default_topic_pattern`:
topics that are always ignored. -/
def _ignore_default_topic_pattern : List String :=
  ["settings/active_power_regulation"]

/-- Active ignore-pattern set built in `initialize`: the user patterns
(the colon-split environment value, empty list when the variable is
unset or empty) followed by the built-in list.  In the source the
non-empty branch computes `value.split(":") + default` and the empty
branch `default`, which is `[] + default`. -/
def activePatterns (user : List String) : List String :=
  user ++ _ignore_default_topic_pattern


/-- External entity `Sensor` (from deye-inverter-mqtt): the attributes
read by the plugin. -/
structure Sensor where
  name : String
  unit : String
  mqtt_topic_suffix : String

/-- External entity `Observation`: the plugin reads only
`observation.sensor`. -/
structure Observation where
  sensor : Sensor

/-- Events of a `DeyeEventList`: observation events are processed, any
other event kind is skipped by `process`. -/
inductive DeyeEvent where
  | observation (o : Observation)
  | other

/-- Configuration and environment state of a `DeyeHADiscovery`
instance after `initialize`, with the fields the publishing methods
read. -/
structure PluginCfg where
  ha_discovery_pfx : String
  serial_number : String
  mqtt_topic_pfx : String
  use_topic_in_unique_id : Bool
  ignore_user_topic_patterns : List String
  active_power_regulation_enabled : Bool
  expire_after : Option Int

/-- Source method `DeyeHADiscovery._adapt_unit`. -/
def _adapt_unit (unit : String) : String :=
  if unit == "minutes" then "min" else unit

/-- Source method `DeyeHADiscovery._get_options`. -/
def _get_options (topic : String) : List String :=
  if topic == "inverter/status" then
    ["standby", "selfcheck", "normal", "alarm", "fault"]
  else
    []

/-- Source method `DeyeHADiscovery._get_payload_on_off`. -/
def _get_payload_on_off (_topic : String) : String × String :=
  ("True", "False")

/-- Discovery payload of `publish_sensor_information` (the JSON dict
`discover_config`; the static `device` block is omitted, see module
conventions). -/
structure DiscoverConfig where
  name : String
  unique_id : String
  force_update : Bool
  device_class : String
  availability_topic : String
  state_topic : String
  expire_after : Option Int
  payload_on : Option String
  payload_off : Option String
  options : Option (List String)
  state_class : Option String
  unit_of_measurement : Option String
deriving DecidableEq

/-- Discovery payload of `publish_status_information`. -/
structure StatusConfig where
  name : String
  device_class : String
  entity_category : String
  force_update : Bool
  unique_id : String
  state_topic : String
  payload_on : String
  payload_off : String
deriving DecidableEq

/-- Discovery payload of `publish_active_power_regulation`. -/
structure NumberConfig where
  name : String
  unique_id : String
  unit_of_measurement : String
  availability_topic : String
  min : Int
  max : Int
  mode : String
  step : Int
  command_topic : String
  state_topic : String
deriving DecidableEq

/-- Source method `DeyeHADiscovery.publish_sensor_information`,
returning the published `(channel, payload)` instead of calling
`mqtt_client.publish`; `none` models the early `return` on an empty
device class (after the error log).  The `_get_unique_id` assert
cannot fire here: a classified suffix is never empty, so `getD ""` is
never taken (lemma `unique_id_isSome_of_classified`). -/
def publish_sensor_information (cfg : PluginCfg) (topic : String)
    (observation : Observation) : Option (String × DiscoverConfig) :=
  let mqtt_topic_suffix := observation.sensor.mqtt_topic_suffix
  let dc := _get_device_class mqtt_topic_suffix
  let device_class := dc.1
  let platform := dc.2
  if device_class == "" then
    none
  else
    let node_id := component_pfx ++ "_" ++ cfg.serial_number
    let object_id := _fmt_topic mqtt_topic_suffix
    let discovery_topic :=
      cfg.ha_discovery_pfx ++ "/" ++ platform ++ "/" ++ node_id ++ "/" ++
        object_id ++ "/config"
    let base : DiscoverConfig :=
      { name := observation.sensor.name
        unique_id :=
          (_get_unique_id cfg.use_topic_in_unique_id cfg.serial_number
            observation.sensor.name mqtt_topic_suffix).getD ""
        force_update := true
        device_class := device_class
        availability_topic := cfg.mqtt_topic_pfx ++ "/status"
        state_topic := topic
        expire_after := cfg.expire_after
        payload_on := none
        payload_off := none
        options := none
        state_class := none
        unit_of_measurement := none }
    let withPlat :=
      if platform == "binary_sensor" then
        { base with
            payload_on := some (_get_payload_on_off mqtt_topic_suffix).1
            payload_off := some (_get_payload_on_off mqtt_topic_suffix).2 }
      else if device_class == "enum" then
        { base with options := some (_get_options mqtt_topic_suffix) }
      else
        { base with
            state_class := some (_get_state_class mqtt_topic_suffix)
            unit_of_measurement := some (_adapt_unit observation.sensor.unit) }
    some (discovery_topic, withPlat)

/-- Source method `DeyeHADiscovery.publish_active_power_regulation`,
returning the published `(channel, payload)`. -/
def publish_active_power_regulation (cfg : PluginCfg) : String × NumberConfig :=
  let component_id := component_pfx ++ "_" ++ cfg.serial_number
  let discovery_topic :=
    cfg.ha_discovery_pfx ++ "/number/" ++ component_id ++
      "/active_power_regulation/config"
  let command_topic :=
    cfg.mqtt_topic_pfx ++ "/settings/active_power_regulation/command"
  let state_topic := cfg.mqtt_topic_pfx ++ "/settings/active_power_regulation"
  (discovery_topic,
    { name := "Active Power Regulation"
      unique_id :=
        (_get_unique_id cfg.use_topic_in_unique_id cfg.serial_number
          "" "settings/active_power_regulation").getD ""
      unit_of_measurement := "%"
      availability_topic := cfg.mqtt_topic_pfx ++ "/status"
      min := 0
      max := 120
      mode := "slider"
      step := 1
      command_topic := command_topic
      state_topic := state_topic })

/-- Source method `DeyeHADiscovery.publish_status_information`,
returning the list of published `(channel, payload)` pairs. -/
def publish_status_information (cfg : PluginCfg) : List (String × StatusConfig) :=
  [("MQTT bridge", "application_status", "running", "status"),
   ("Inverter logger", "logger_status", "connectivity", "logger_status")].map
    fun q =>
      let component_id := component_pfx ++ "_" ++ cfg.serial_number
      let discovery_topic :=
        cfg.ha_discovery_pfx ++ "/binary_sensor/" ++ component_id ++ "/" ++
          q.2.1 ++ "/config"
      (discovery_topic,
        { name := q.1
          device_class := q.2.2.1
          entity_category := "diagnostic"
          force_update := true
          unique_id :=
            (_get_unique_id cfg.use_topic_in_unique_id cfg.serial_number
              "" q.2.1).getD ""
          state_topic := cfg.mqtt_topic_pfx ++ "/" ++ q.2.2.2
          payload_on := "online"
          payload_off := "offline" })

/-- One message published by `process`, tagged with the publishing
method. -/
inductive Publish where
  | sensor (channel : String) (payload : DiscoverConfig)
  | status (channel : String) (payload : StatusConfig)
  | control (channel : String) (payload : NumberConfig)
deriving DecidableEq

/-- The per-event `for` loop of `DeyeHADiscovery.process`.
`build_topic` models the transport collaborator's
`mqtt_client.build_topic_name` (not part of this repository). -/
def processLoop (cfg : PluginCfg) (build_topic : String → String) :
    List DeyeEvent → List Publish
  | [] => []
  | DeyeEvent.other :: rest => processLoop cfg build_topic rest
  | DeyeEvent.observation o :: rest =>
    if o.sensor.mqtt_topic_suffix == "" then
      processLoop cfg build_topic rest
    else if _ignore_topic o.sensor.mqtt_topic_suffix
        (activePatterns cfg.ignore_user_topic_patterns) then
      processLoop cfg build_topic rest
    else
      match publish_sensor_information cfg
          (build_topic o.sensor.mqtt_topic_suffix) o with
      | none => processLoop cfg build_topic rest
      | some pub => Publish.sensor pub.1 pub.2 :: processLoop cfg build_topic rest

/-- Source method `DeyeHADiscovery.process`: status descriptors, the
optional control descriptor, then the per-event loop. -/
def process (cfg : PluginCfg) (build_topic : String → String)
    (events : List DeyeEvent) : List Publish :=
  ((publish_status_information cfg).map fun p => Publish.status p.1 p.2) ++
    (if cfg.active_power_regulation_enabled then
      [Publish.control (publish_active_power_regulation cfg).1
        (publish_active_power_regulation cfg).2]
    else []) ++
    processLoop cfg build_topic events

/-- Concrete configuration used by witnesses. -/
def cfgW : PluginCfg :=
  { ha_discovery_pfx := "homeassistant"
    serial_number := "ABC123"
    mqtt_topic_pfx := "deye"
    use_topic_in_unique_id := false
    ignore_user_topic_patterns := []
    active_power_regulation_enabled := false
    expire_after := none }

/-- Concrete unclassifiable observation used by witnesses. -/
def obsW : Observation := ⟨⟨"Nonsense", "", "nonsense/xyz"⟩⟩

/-- Concrete classifiable observation used by witnesses. -/
def obsSoc : Observation := ⟨⟨"Battery SOC", "%", "battery/soc"⟩⟩

/-- Observation whose topic suffix carries leading whitespace; used to
separate `_fmt_topic` (which strips) from the spec's description of
the object id (which does not). -/
def obsWs : Observation := ⟨⟨"Battery SOC", "%", " battery/soc"⟩⟩

/-- Declarative reading of the amended rule 4: the topic suffix starts
with `ac/l`, a non-empty digit run, and `/ct/internal` or
`/ct/external`; arbitrary characters may follow. -/
def ctDecl (t : String) : Prop :=
  ∃ ds r, ds ≠ [] ∧ (∀ c ∈ ds, c.isDigit = true) ∧
    (t.data = "ac/l".data ++ ds ++ "/ct/internal".data ++ r ∨
     t.data = "ac/l".data ++ ds ++ "/ct/external".data ++ r)

theorem isPrefixOfL_iff (p l : List Char) :
    isPrefixOfL p l = true ↔ ∃ r, l = p ++ r := by
  induction p generalizing l with
  | nil => simp [isPrefixOfL]
  | cons a as ih =>
    cases l with
    | nil => simp [isPrefixOfL]
    | cons b bs =>
      simp only [isPrefixOfL, Bool.and_eq_true, beq_iff_eq, ih, List.cons_append,
        List.cons.injEq]
      constructor
      · rintro ⟨rfl, r, rfl⟩
        exact ⟨r, rfl, rfl⟩
      · rintro ⟨r, rfl, rfl⟩
        exact ⟨rfl, r, rfl⟩

theorem takeWhile_all_append (p : Char → Bool) (ds : List Char) (x : Char)
    (xs : List Char) (hall : ∀ c ∈ ds, p c = true) (hx : p x = false) :
    (ds ++ x :: xs).takeWhile p = ds := by
  induction ds with
  | nil => simp [List.takeWhile_cons, hx]
  | cons d ds ih =>
    have hd : p d = true := hall d (by simp)
    simp only [List.cons_append, List.takeWhile_cons, hd, if_true]
    rw [ih fun c hc => hall c (by simp [hc])]

theorem drop_four_acl (l : List Char) : List.drop 4 ("ac/l".data ++ l) = l := rfl

theorem ctMatchL_iff_ctDecl (t : String) : ctMatchL t.data = true ↔ ctDecl t := by
  constructor
  · intro h
    unfold ctMatchL at h
    simp only [Bool.and_eq_true, Bool.or_eq_true, Bool.not_eq_true'] at h
    obtain ⟨hpre, hne, hct⟩ := h
    obtain ⟨r0, hr0⟩ := (isPrefixOfL_iff _ _).mp hpre
    have hdrop : t.data.drop 4 = r0 := by
      rw [hr0]
      exact drop_four_acl r0
    set ds := (t.data.drop 4).takeWhile Char.isDigit with hds
    have hsplit : t.data.drop 4 = ds ++ (t.data.drop 4).dropWhile Char.isDigit := by
      rw [hds]
      exact (List.takeWhile_append_dropWhile Char.isDigit (t.data.drop 4)).symm
    have hdw : (t.data.drop 4).drop ds.length = (t.data.drop 4).dropWhile Char.isDigit := by
      conv_lhs => rw [hsplit]
      exact List.drop_left _ _
    rw [hdw] at hct
    refine ⟨ds, ?_⟩
    rcases hct with hct | hct
    · obtain ⟨r, hr⟩ := (isPrefixOfL_iff _ _).mp hct
      refine ⟨r, by simpa [List.isEmpty_eq_false] using hne,
        fun c hc => List.mem_takeWhile_imp hc, Or.inl ?_⟩
      rw [hr0, hdrop.symm, hsplit, hr]
      simp
    · obtain ⟨r, hr⟩ := (isPrefixOfL_iff _ _).mp hct
      refine ⟨r, by simpa [List.isEmpty_eq_false] using hne,
        fun c hc => List.mem_takeWhile_imp hc, Or.inr ?_⟩
      rw [hr0, hdrop.symm, hsplit, hr]
      simp
  · rintro ⟨ds, r, hne, hdig, hcase⟩
    unfold ctMatchL
    simp only [Bool.and_eq_true, Bool.or_eq_true, Bool.not_eq_true']
    rcases hcase with hcase | hcase
    · have hdrop : t.data.drop 4 = ds ++ ("/ct/internal".data ++ r) := by
        rw [hcase, List.append_assoc]
        exact drop_four_acl _
      have htw : (t.data.drop 4).takeWhile Char.isDigit = ds := by
        rw [hdrop]
        have : "/ct/internal".data ++ r = '/' :: ("ct/internal".data ++ r) := rfl
        rw [this]
        exact takeWhile_all_append _ _ _ _ hdig (by decide)
      refine ⟨(isPrefixOfL_iff _ _).mpr ⟨_, hcase⟩, ?_, ?_⟩
      · rw [htw]
        simpa [List.isEmpty_eq_false] using hne
      · left
        rw [htw, hdrop, List.drop_left]
        exact (isPrefixOfL_iff _ _).mpr ⟨r, rfl⟩
    · have hdrop : t.data.drop 4 = ds ++ ("/ct/external".data ++ r) := by
        rw [hcase, List.append_assoc]
        exact drop_four_acl _
      have htw : (t.data.drop 4).takeWhile Char.isDigit = ds := by
        rw [hdrop]
        have : "/ct/external".data ++ r = '/' :: ("ct/external".data ++ r) := rfl
        rw [this]
        exact takeWhile_all_append _ _ _ _ hdig (by decide)
      refine ⟨(isPrefixOfL_iff _ _).mpr ⟨_, hcase⟩, ?_, ?_⟩
      · rw [htw]
        simpa [List.isEmpty_eq_false] using hne
      · right
        rw [htw, hdrop, List.drop_left]
        exact (isPrefixOfL_iff _ _).mpr ⟨r, rfl⟩

/-- C1 counterexample: at the suffix `ac/l1/ct/internalx` the code
classifies `("power", "sensor")` (rule 4 fires, because `re.match`
only anchors at the start), while the rule cascade of spec section 4.1
(rule 4 read as an exact full-suffix match) leaves the suffix
unclassified. -/
theorem claim1_counterexample :
    _get_device_class "ac/l1/ct/internalx" = ("power", "sensor") ∧
    firstMatch specRules "ac/l1/ct/internalx" = ("", "sensor") := by
  constructor
  · decide
  · decide

/-- C1 (amended): for every topic suffix, `_get_device_class`
evaluates the ordered rule cascade of spec section 4.1 top-down —
with rule 4 read as an anchored-prefix regex match, which is what
`re.match` does — and returns the device class of the first matching
rule with platform `"sensor"`, except that `ac/ongrid` yields
`("power", "binary_sensor")` and an unmatched topic yields
`("", "sensor")`; in particular the three quoted evaluations hold. -/
theorem claim1_amended :
    (∀ t : String, _get_device_class t = firstMatch specRulesAmended t) ∧
    _get_device_class "ac/l1/voltage" = ("voltage", "sensor") ∧
    _get_device_class "ac/ongrid" = ("power", "binary_sensor") ∧
    _get_device_class "inverter/status" = ("enum", "sensor") ∧
    _get_device_class "nonsense/xyz" = ("", "sensor") :=
  ⟨fun _ => rfl, by decide, by decide, by decide, by decide⟩

/-- C2 counterexample: `ac/l2/ct/externalY` is not matched by the
voltage, current or energy rules and does NOT match the regex as a
full suffix (it has a trailing character), yet the code classifies it
`("power", "sensor")` through the regex rule, refuting the claim's
"exact match on full suffix". -/
theorem claim2_counterexample :
    (pyEndsWith "ac/l2/ct/externalY" "/voltage" ||
      pyEndsWith "ac/l2/ct/externalY" "/charging_voltage" ||
      pyEndsWith "ac/l2/ct/externalY" "/discharge_voltage") = false ∧
    (pyEndsWith "ac/l2/ct/externalY" "/current" ||
      pyEndsWith "ac/l2/ct/externalY" "charge_current_limit" ||
      pyEndsWith "ac/l2/ct/externalY" "/charging_max_current" ||
      pyEndsWith "ac/l2/ct/externalY" "/discharge_max_current") = false ∧
    (pyEndsWith "ac/l2/ct/externalY" "_charge" ||
      pyEndsWith "ac/l2/ct/externalY" "_discharge" ||
      pyEndsWith "ac/l2/ct/externalY" "_energy" ||
      pyContains "ac/l2/ct/externalY" "_energy_") = false ∧
    ctFullMatchL "ac/l2/ct/externalY".data = false ∧
    ctMatchL "ac/l2/ct/externalY".data = true ∧
    _get_device_class "ac/l2/ct/externalY" = ("power", "sensor") := by
  refine ⟨by decide, by decide, by decide, by decide, by decide, by decide⟩

/-- C2 (amended): for every topic suffix not matched by the voltage,
current or energy rules, the regex rule classifies it
`("power", "sensor")` exactly when the suffix BEGINS with
`ac/l<digits>/ct/(internal|external)` (anchored-prefix `re.match`
semantics; trailing characters are allowed); `ctMatchL` is exactly
that prefix language. -/
theorem claim2_amended :
    (∀ t : String,
      (pyEndsWith t "/voltage" || pyEndsWith t "/charging_voltage" ||
        pyEndsWith t "/discharge_voltage") = false →
      (pyEndsWith t "/current" || pyEndsWith t "charge_current_limit" ||
        pyEndsWith t "/charging_max_current" ||
        pyEndsWith t "/discharge_max_current") = false →
      (pyEndsWith t "_charge" || pyEndsWith t "_discharge" ||
        pyEndsWith t "_energy" || pyContains t "_energy_") = false →
      ctMatchL t.data = true →
      _get_device_class t = ("power", "sensor")) ∧
    ∀ t : String, ctMatchL t.data = true ↔ ctDecl t := by
  constructor
  · intro t h1 h2 h3 h4
    unfold _get_device_class
    rw [h1, h2, h3, h4]
    simp
  · exact ctMatchL_iff_ctDecl

/-- Witness for C2 (amended) at `ac/l5/ct/internal`. -/
theorem claim2_amended_witness :
    _get_device_class "ac/l5/ct/internal" = ("power", "sensor") ∧
    ctDecl "ac/l5/ct/internal" :=
  ⟨claim2_amended.1 "ac/l5/ct/internal" (by decide) (by decide) (by decide)
      (by decide),
    (claim2_amended.2 "ac/l5/ct/internal").mp (by decide)⟩

/-- C3: `_get_state_class` returns `total_increasing` exactly when the
suffix ends with `_charge`, `_discharge`, `_energy`, `_energy_bought`
or `_energy_sold`, or equals `uptime`, and returns `measurement` for
every other suffix; the two boundary evaluations are included. -/
theorem claim3 :
    (∀ t : String,
      (_get_state_class t = "total_increasing" ↔
        (pyEndsWith t "_charge" = true ∨ pyEndsWith t "_discharge" = true ∨
          pyEndsWith t "_energy" = true ∨ pyEndsWith t "_energy_bought" = true ∨
          pyEndsWith t "_energy_sold" = true ∨ t = "uptime")) ∧
      (_get_state_class t = "total_increasing" ∨
        _get_state_class t = "measurement")) ∧
    _get_state_class "total_energy" = "total_increasing" ∧
    _get_state_class "total_energyx" = "measurement" := by
  refine ⟨fun t => ?_, by decide, by decide⟩
  unfold _get_state_class
  split
  next h =>
    simp only [Bool.or_eq_true, beq_iff_eq, or_assoc] at h
    simp [h]
  next h =>
    simp only [Bool.or_eq_true, beq_iff_eq] at h
    push_neg at h
    constructor
    · constructor
      · intro hcontra
        exact absurd hcontra (by decide)
      · intro hd
        rcases hd with hd | hd | hd | hd | hd | hd <;> simp_all
    · right
      rfl

theorem repl_lower_eq_idChar (c : Char) :
    (fun d => if d == '/' then '_' else d)
      ((fun d => if d == ' ' then '_' else d) c.toLower) = idChar c := by
  unfold idChar
  by_cases h1 : c.toLower == ' '
  · simp [h1]
  · by_cases h2 : c.toLower == '/'
    · simp [h1, h2]
    · simp [h1, h2]

theorem unique_id_eq (flag : Bool) (serial n t : String) (h : ¬(n = "" ∧ t = "")) :
    _get_unique_id flag serial n t =
      some (normalizeId (idPfx flag ++ "_" ++ serial ++ "_" ++
        effComponent flag n t)) := by
  have hg : (n == "" && t == "") = false := by
    by_cases hn : n = "" <;> by_cases ht : t = "" <;> simp_all
  unfold _get_unique_id idPfx effComponent component_pfx
  rw [hg]
  simp only [Bool.false_eq_true, if_false]
  congr 1
  apply String.ext
  simp only [pyReplace, pyLower, normalizeId, List.map_map]
  exact List.map_congr_left fun c _ => repl_lower_eq_idChar c

/-- C4: whenever at least one identity field is non-empty,
`_get_unique_id` returns the composed string
`prefix_serial_component`, lower-cased, with every space and slash
replaced by an underscore; the component is the topic suffix when the
topic strategy is enabled and the suffix is non-empty, the sensor name
otherwise, and the literal in front is `deye_mqtt_inverter` when the
strategy is disabled and `deye_inverter_mqtt` when it is enabled.  The
quoted example evaluation is included. -/
theorem claim4 :
    (∀ (flag : Bool) (serial n t : String), ¬(n = "" ∧ t = "") →
      _get_unique_id flag serial n t =
        some (normalizeId (idPfx flag ++ "_" ++ serial ++ "_" ++
          effComponent flag n t))) ∧
    idPfx false = "deye_mqtt_inverter" ∧
    idPfx true = "deye_inverter_mqtt" ∧
    _get_unique_id false "ABC123" "Battery SOC" "battery/soc" =
      some "deye_mqtt_inverter_abc123_battery_soc" :=
  ⟨fun flag serial n t h => unique_id_eq flag serial n t h, by decide, by decide,
    by decide⟩

/-- Witness for C4 at the spec's example input. -/
theorem claim4_witness :
    _get_unique_id false "ABC123" "Battery SOC" "battery/soc" =
      some (normalizeId (idPfx false ++ "_" ++ "ABC123" ++ "_" ++
        effComponent false "Battery SOC" "battery/soc")) :=
  claim4.1 false "ABC123" "Battery SOC" "battery/soc" (by decide)

/-- C5 counterexample: the two distinct identity pairs
`("Battery SOC", "a")` and `("Battery SOC", "b")` (each with a
non-empty field), same serial and same (disabled) strategy flag,
produce the SAME unique id, because with the strategy disabled the
topic suffix does not enter the id at all. -/
theorem claim5_counterexample :
    (("Battery SOC", "a") : String × String) ≠ ("Battery SOC", "b") ∧
    _get_unique_id false "ABC123" "Battery SOC" "a" =
      _get_unique_id false "ABC123" "Battery SOC" "b" := by
  constructor
  · decide
  · decide

/-- C5 (amended): the generated unique ids differ whenever the
normalised effective components differ — i.e. `_get_unique_id` is
injective in the lower-cased, underscore-normalised component actually
selected by the strategy, not in the raw `(sensorName, topicSuffix)`
pair. -/
theorem claim5_amended (flag : Bool) (serial n1 t1 n2 t2 : String)
    (h1 : ¬(n1 = "" ∧ t1 = "")) (h2 : ¬(n2 = "" ∧ t2 = ""))
    (hc : normalizeId (effComponent flag n1 t1) ≠
      normalizeId (effComponent flag n2 t2)) :
    _get_unique_id flag serial n1 t1 ≠ _get_unique_id flag serial n2 t2 := by
  rw [unique_id_eq flag serial n1 t1 h1, unique_id_eq flag serial n2 t2 h2]
  intro heq
  apply hc
  have hdata := congrArg (fun o => (Option.getD o "").data) heq
  simp only [Option.getD_some] at hdata
  simp only [normalizeId, String.data_append] at hdata
  simp only [List.map_append, List.append_assoc] at hdata
  have hcomp := List.append_cancel_left (List.append_cancel_left
    (List.append_cancel_left (List.append_cancel_left hdata)))
  apply String.ext
  simpa [normalizeId] using hcomp

/-- Witness for C5 (amended): two pairs with distinct normalised
components give distinct ids. -/
theorem claim5_amended_witness :
    _get_unique_id false "S" "Battery SOC" "" ≠
      _get_unique_id false "S" "Daily Energy" "" :=
  claim5_amended false "S" "Battery SOC" "" "Daily Energy" ""
    (by decide) (by decide) (by decide)

/-- C6: `_get_unique_id` fails (modelled by `none`, for the Python
`assert`) exactly when both identity fields are empty, and returns a
string (`isSome`) exactly otherwise. -/
theorem claim6 : ∀ (flag : Bool) (serial n t : String),
    (_get_unique_id flag serial n t = none ↔ (n = "" ∧ t = "")) ∧
    ((_get_unique_id flag serial n t).isSome = true ↔ ¬(n = "" ∧ t = "")) := by
  intro flag serial n t
  unfold _get_unique_id
  by_cases hn : n = "" <;> by_cases ht : t = "" <;> simp_all

theorem globMatchL_star (ps s : List Char) :
    globMatchL ('*' :: ps) s = (s.tails.any fun t => globMatchL ps t) := rfl

/-- C7: `_ignore_topic` returns true exactly when some glob pattern of
the active set (user patterns followed by the fixed built-in list)
matches the whole topic suffix; the built-in pattern
`settings/active_power_regulation` is matched for EVERY user pattern
list, so it cannot be disabled by configuration.  The conjuncts on
`globMatchL` pin the claimed glob semantics: `*` matches any run of
characters (the match splits the remaining string arbitrarily) and `?`
consumes exactly one character. -/
theorem claim7 :
    (∀ (topic : String) (user : List String),
      _ignore_topic topic (activePatterns user) = true ↔
        ∃ p ∈ activePatterns user, globMatchL p.data topic.data = true) ∧
    (∀ user : List String,
      _ignore_topic "settings/active_power_regulation" (activePatterns user) =
        true) ∧
    (∀ ps s : List Char,
      (globMatchL ('*' :: ps) s = true ↔
        ∃ a b, s = a ++ b ∧ globMatchL ps b = true)) ∧
    (∀ (ps : List Char) (c : Char) (s : List Char),
      globMatchL ('?' :: ps) (c :: s) = globMatchL ps s) ∧
    (∀ ps : List Char, globMatchL ('?' :: ps) [] = false) := by
  refine ⟨?_, ?_, ?_, ?_, ?_⟩
  · intro topic user
    unfold _ignore_topic fnmatch
    exact List.any_eq_true
  · intro user
    unfold _ignore_topic activePatterns _ignore_default_topic_pattern
    rw [List.any_append]
    simp only [Bool.or_eq_true]
    right
    decide
  · intro ps s
    rw [globMatchL_star, List.any_eq_true]
    constructor
    · rintro ⟨t, ht, hm⟩
      obtain ⟨a, ha⟩ := (List.mem_tails _ _).mp ht
      exact ⟨a, t, ha.symm, hm⟩
    · rintro ⟨a, b, rfl, hm⟩
      exact ⟨b, (List.mem_tails _ _).mpr ⟨a, rfl⟩, hm⟩
  · intro ps c s
    rfl
  · intro ps
    rfl

/-- C8: when classification yields an empty device class,
`publish_sensor_information` publishes nothing (it returns after the
error log — no partial or default descriptor), and both the per-event
loop and `process` treat the failing observation as skipped,
continuing with the remaining events. -/
theorem claim8 : ∀ (cfg : PluginCfg) (build_topic : String → String)
    (topic : String) (o : Observation) (rest : List DeyeEvent),
    (_get_device_class o.sensor.mqtt_topic_suffix).1 = "" →
    publish_sensor_information cfg topic o = none ∧
    processLoop cfg build_topic (DeyeEvent.observation o :: rest) =
      processLoop cfg build_topic rest ∧
    process cfg build_topic (DeyeEvent.observation o :: rest) =
      process cfg build_topic rest := by
  intro cfg build_topic topic o rest h
  have hpub : ∀ tp, publish_sensor_information cfg tp o = none := by
    intro tp
    unfold publish_sensor_information
    simp [h]
  have hloop : processLoop cfg build_topic (DeyeEvent.observation o :: rest) =
      processLoop cfg build_topic rest := by
    simp [processLoop, hpub]
  exact ⟨hpub topic, hloop, by simp only [process, hloop]⟩

/-- Witness for C8 at the unclassifiable topic `nonsense/xyz`. -/
theorem claim8_witness :
    publish_sensor_information cfgW "t" obsW = none ∧
    processLoop cfgW (fun s => s) [DeyeEvent.observation obsW] =
      processLoop cfgW (fun s => s) [] ∧
    process cfgW (fun s => s) [DeyeEvent.observation obsW] =
      process cfgW (fun s => s) [] :=
  claim8 cfgW (fun s => s) "t" obsW [] (by decide)

/-- C9 counterexample: for the successfully classified suffix
` battery/soc` (leading space), the code publishes on
`.../battery_soc/config` — `_fmt_topic` additionally STRIPS
surrounding whitespace — while the claim's object id (lower-case,
slash to underscore, nothing else) would be ` battery_soc`. -/
theorem claim9_counterexample :
    (_get_device_class " battery/soc").1 ≠ "" ∧
    (publish_sensor_information cfgW "t" obsWs).map Prod.fst =
      some "homeassistant/sensor/deye_inverter_mqtt_ABC123/battery_soc/config" ∧
    pyReplace (pyLower " battery/soc") '/' '_' = " battery_soc" ∧
    ("homeassistant/sensor/deye_inverter_mqtt_ABC123/battery_soc/config" : String) ≠
      "homeassistant/sensor/deye_inverter_mqtt_ABC123/" ++ " battery_soc" ++
        "/config" := by
  refine ⟨by decide, by decide, by decide, by decide⟩

/-- C9 (amended): every successfully classified observation is
published on `{pfx}/{platform}/{nodeId}/{objectId}/config` where the
object id is the topic suffix lower-cased, with `/` replaced by `_`,
and stripped of surrounding whitespace; the status descriptors go to
`{pfx}/binary_sensor/{nodeId}/{topic}/config` and the control
descriptor to `{pfx}/number/{nodeId}/active_power_regulation/config`. -/
theorem claim9_amended :
    (∀ (cfg : PluginCfg) (topic : String) (o : Observation),
      (_get_device_class o.sensor.mqtt_topic_suffix).1 ≠ "" →
      (publish_sensor_information cfg topic o).map Prod.fst =
        some (cfg.ha_discovery_pfx ++ "/" ++
          (_get_device_class o.sensor.mqtt_topic_suffix).2 ++ "/" ++
          (component_pfx ++ "_" ++ cfg.serial_number) ++ "/" ++
          _fmt_topic o.sensor.mqtt_topic_suffix ++ "/config")) ∧
    (∀ cfg : PluginCfg,
      (publish_status_information cfg).map Prod.fst =
        [cfg.ha_discovery_pfx ++ "/binary_sensor/" ++
            (component_pfx ++ "_" ++ cfg.serial_number) ++
            "/" ++ "application_status" ++ "/config",
          cfg.ha_discovery_pfx ++ "/binary_sensor/" ++
            (component_pfx ++ "_" ++ cfg.serial_number) ++
            "/" ++ "logger_status" ++ "/config"]) ∧
    (∀ cfg : PluginCfg,
      (publish_active_power_regulation cfg).1 =
        cfg.ha_discovery_pfx ++ "/number/" ++
          (component_pfx ++ "_" ++ cfg.serial_number) ++
          "/active_power_regulation/config") ∧
    (∀ t : String, _fmt_topic t = pyStrip (pyReplace (pyLower t) '/' '_')) := by
  refine ⟨?_, fun cfg => rfl, fun cfg => rfl, fun t => rfl⟩
  intro cfg topic o h
  unfold publish_sensor_information
  simp [h]

/-- Witness for C9 (amended) at the classified observation
`battery/soc`. -/
theorem claim9_amended_witness :
    (publish_sensor_information cfgW "t" obsSoc).map Prod.fst =
      some (cfgW.ha_discovery_pfx ++ "/" ++
        (_get_device_class obsSoc.sensor.mqtt_topic_suffix).2 ++ "/" ++
        (component_pfx ++ "_" ++ cfgW.serial_number) ++ "/" ++
        _fmt_topic obsSoc.sensor.mqtt_topic_suffix ++ "/config") :=
  claim9_amended.1 cfgW "t" obsSoc (by decide)

theorem normalizeId_serial (serial : String)
    (hs : ∀ c ∈ (pyLower serial).data, c ≠ ' ' ∧ c ≠ '/') :
    normalizeId (idPfx false ++ "_" ++ serial ++ "_" ++ "") =
      "deye_mqtt_inverter_" ++ pyLower serial ++ "_" := by
  apply String.ext
  simp only [normalizeId, String.data_append, List.map_append]
  have h1 : List.map idChar (idPfx false).data = "deye_mqtt_inverter".data := rfl
  have h2 : List.map idChar serial.data = (pyLower serial).data := by
    show _ = serial.data.map Char.toLower
    apply List.map_congr_left
    intro c hc
    have hmem : c.toLower ∈ (pyLower serial).data := by
      show c.toLower ∈ serial.data.map Char.toLower
      exact List.mem_map_of_mem _ hc
    obtain ⟨hsp, hsl⟩ := hs _ hmem
    unfold idChar
    simp [hsp, hsl]
  rw [h1, h2]
  simp [List.append_assoc, show idChar '_' = '_' from rfl]

/-- C10: with the topic-based id strategy disabled, the unique id of a
nameless sensor is `deye_mqtt_inverter_<serial lower-cased>_` for
every non-empty topic suffix — independent of the suffix — and
consequently the two status descriptors and the control descriptor all
carry that same unique id.  (The serial is assumed free of spaces and
slashes, as real serial numbers are, so that lower-casing is the only
normalisation that touches it.) -/
theorem claim10 (serial : String)
    (hs : ∀ c ∈ (pyLower serial).data, c ≠ ' ' ∧ c ≠ '/') :
    (∀ t : String, t ≠ "" →
      _get_unique_id false serial "" t =
        some ("deye_mqtt_inverter_" ++ pyLower serial ++ "_")) ∧
    (∀ t t' : String, t ≠ "" → t' ≠ "" →
      _get_unique_id false serial "" t = _get_unique_id false serial "" t') ∧
    (∀ cfg : PluginCfg, cfg.serial_number = serial →
      cfg.use_topic_in_unique_id = false →
      ((publish_status_information cfg).map fun p => p.2.unique_id) =
        ["deye_mqtt_inverter_" ++ pyLower serial ++ "_",
          "deye_mqtt_inverter_" ++ pyLower serial ++ "_"] ∧
      (publish_active_power_regulation cfg).2.unique_id =
        "deye_mqtt_inverter_" ++ pyLower serial ++ "_") := by
  have huid : ∀ t : String, t ≠ "" →
      _get_unique_id false serial "" t =
        some ("deye_mqtt_inverter_" ++ pyLower serial ++ "_") := by
    intro t ht
    rw [unique_id_eq false serial "" t (by simp [ht])]
    rw [show effComponent false "" t = "" from rfl]
    rw [normalizeId_serial serial hs]
  refine ⟨huid, fun t t' ht ht' => by rw [huid t ht, huid t' ht'], ?_⟩
  intro cfg hser hflag
  have h1 := huid "application_status" (by decide)
  have h2 := huid "logger_status" (by decide)
  have h3 := huid "settings/active_power_regulation" (by decide)
  constructor
  · simp [publish_status_information, hser, hflag, h1, h2]
  · simp [publish_active_power_regulation, hser, hflag, h3]

/-- Witness for C10 at serial `ABC123`. -/
theorem claim10_witness :
    _get_unique_id false "ABC123" "" "application_status" =
      some ("deye_mqtt_inverter_" ++ pyLower "ABC123" ++ "_") ∧
    (publish_active_power_regulation cfgW).2.unique_id =
      "deye_mqtt_inverter_" ++ pyLower "ABC123" ++ "_" :=
  ⟨(claim10 "ABC123" (by decide)).1 "application_status" (by decide),
    ((claim10 "ABC123" (by decide)).2.2 cfgW rfl rfl).2⟩
